import Mathlib

/-!
Verification development for the payment-gateway aggregator backend.

Shallow embedding of the checkout orchestrator, the Stripe / Square / PayPal
adapters and the admin configuration store.  Monetary amounts are modelled as
rationals (the source uses exact decimal arithmetic), machine timestamps as
integers, and outbound HTTP payloads as lists of key-value string pairs.
-/

namespace Server

/-- Substring containment: the character data of `needle` occurs contiguously
inside the character data of `hay`.  Used to state that an error message
carries a raw gateway body verbatim. -/
def strContainsSub (hay needle : String) : Prop :=
  needle.data <:+: hay.data

instance (hay needle : String) : Decidable (strContainsSub hay needle) := by
  unfold strContainsSub; infer_instance

/-- Python str int truncation toward zero, as applied by `int(...)` to a
nonnegative or negative decimal amount. -/
def pyTrunc (x : ℚ) : ℤ :=
  if 0 ≤ x then ⌊x⌋ else -⌊-x⌋

/-! ### Checkout data model (src/app/checkout/schemas.py) -/

/-- Order line item (`OrderItemSchema`); only the fields the verified
operations inspect are carried. -/
structure OrderItem where
  product_id : String
  name : String
  quantity : Nat
  unit_price : ℚ
  currency : String
deriving Repr, DecidableEq

/-- Checkout request (`CheckoutRequestSchema`): order id, items and the five
decimal amounts with currency.  Customer and address subobjects are elided;
no verified operation reads them. -/
structure CheckoutRequest where
  order_id : String
  items : List OrderItem
  subtotal : ℚ
  tax_amount : ℚ
  shipping_amount : ℚ
  discount_amount : ℚ
  total_amount : ℚ
  currency : String
deriving Repr, DecidableEq

/-- Response shape returned to the caller (`CheckoutResponseSchema`). -/
structure CheckoutResponse where
  success : Bool
  order_id : String
  paypal_order_id : Option String
  status : String
  message : String
  error_code : Option String
deriving Repr, DecidableEq

/-! ### Checkout orchestrator (src/app/checkout/services.py, CheckoutService) -/

/-- Outcome of the validation phase of `CheckoutService.process_checkout`:
either an immediate rejection response (no outbound gateway call is made) or
delegation to the PayPal adapter order-creation call. -/
inductive CheckoutStep where
  | reject (resp : CheckoutResponse)
  | callPayPal (req : CheckoutRequest)
deriving Repr, DecidableEq

/-- Embedding of `CheckoutService.process_checkout` up to the point where the
PayPal adapter is invoked (services.py lines 359-394): empty item list and
totals mismatch beyond 0.01 are rejected before any external call. -/
def process_checkout (r : CheckoutRequest) : CheckoutStep :=
  if r.items.isEmpty then
    .reject { success := false, order_id := r.order_id, paypal_order_id := none,
              status := "failed", message := "No items in order",
              error_code := some "VALIDATION_ERROR" }
  else if |r.subtotal + r.tax_amount + r.shipping_amount - r.discount_amount
            - r.total_amount| > (1 / 100 : ℚ) then
    .reject { success := false, order_id := r.order_id, paypal_order_id := none,
              status := "failed", message := "Total amount calculation mismatch",
              error_code := some "VALIDATION_ERROR" }
  else
    .callPayPal r

/-! ### PayPal adapter response mapping (src/app/checkout/services.py) -/

/-- A PayPal gateway HTTP error body after `response.json()` parsing:
`rawText` is the verbatim body, `message` and `error` the two fields the
mapping extracts. -/
structure PayPalErrorBody where
  rawText : String
  message : Option String
  error : Option String
deriving Repr, DecidableEq

/-- Embedding of the response mapping of
`PayPalCommerceService.create_paypal_order` (services.py lines 177-201): a
non-201 status yields a failure whose message embeds only the parsed
`message` field of the body (default `Unknown error`). -/
def create_paypal_order_result (order_id : String) (status : Nat)
    (body : PayPalErrorBody) (paypal_order_id : String) : CheckoutResponse :=
  if status ≠ 201 then
    { success := false, order_id := order_id, paypal_order_id := none,
      status := "failed",
      message := "PayPal order creation failed: " ++ body.message.getD "Unknown error",
      error_code := some (body.error.getD "PAYPAL_ERROR") }
  else
    { success := true, order_id := order_id, paypal_order_id := some paypal_order_id,
      status := "created", message := "PayPal order created successfully",
      error_code := none }

/-! ### Stripe service response mapping
(src/app/checkout/credit_card/stripe/services.py) -/

/-- Success flag and message of a `StripeCheckoutResponseSchema` as built by
`StripeService.create_payment_intent`. -/
structure StripeServiceResult where
  success : Bool
  message : String
deriving Repr, DecidableEq

/-- Embedding of the terminal response mapping of
`StripeService.create_payment_intent` (services.py lines 131-189): a non-200
status yields a failure whose message embeds the raw response text. -/
def create_payment_intent_result (status : Nat) (bodyText : String) :
    StripeServiceResult :=
  if status ≠ 200 then
    { success := false, message := "Failed to create payment intent: " ++ bodyText }
  else
    { success := true, message := "Payment intent created successfully" }

/-! ### Stripe payment route (src/app/checkout/credit_card/stripe/routes.py) -/

/-- Card fields of the inbound payment method object, as read by
`process_stripe_payment` from the raw JSON body. -/
structure StripePaymentMethodData where
  card_number : String
  expiry_month : String
  expiry_year : String
  cvc : String
  name_on_card : String
deriving Repr, DecidableEq

/-- The parts of the raw request body that `process_stripe_payment` reads.
`api_key` is the value of `payment_config.api_key`, with the empty string
standing for an absent or falsy key. -/
structure StripeRouteBody where
  api_key : String
  order_id : String
  customer_email : String
  payment_method : StripePaymentMethodData
  subtotal : ℚ
  tax_amount : ℚ
  shipping_amount : ℚ
  discount_amount : ℚ
  total_amount : ℚ
  currency : String
deriving Repr, DecidableEq

/-- The static PAN-to-token lookup table of routes.py lines 87-100 (the same
table appears in `StripeService._create_payment_method`). -/
def test_tokens : List (String × String) :=
  [("4242424242424242", "tok_visa"),
   ("4000056655665556", "tok_visa_debit"),
   ("5555555555554444", "tok_mastercard"),
   ("2223003122003222", "tok_mastercard_debit"),
   ("5200828282828210", "tok_mastercard_prepaid"),
   ("5105105105105100", "tok_mastercard"),
   ("378282246310005", "tok_amex"),
   ("371449635398431", "tok_amex"),
   ("6011111111111117", "tok_discover"),
   ("3056930009020004", "tok_diners"),
   ("3566002020360505", "tok_jcb"),
   ("6200000000000005", "tok_unionpay")]

/-- Dictionary lookup `test_tokens.get(card_number)`. -/
def lookupTestToken (pan : String) : Option String :=
  (test_tokens.find? (fun kv => kv.1 = pan)).map (·.2)

/-- Form parameters of the outbound PaymentMethod-creation request
(routes.py lines 111-143): a mapped PAN is replaced by its token, an
unmapped PAN is sent as raw card fields. -/
def stripePaymentMethodParams (b : StripeRouteBody) : List (String × String) :=
  match lookupTestToken b.payment_method.card_number with
  | some tok =>
      [("type", "card"),
       ("card[token]", tok),
       ("billing_details[name]", b.payment_method.name_on_card),
       ("billing_details[email]", b.customer_email)]
  | none =>
      [("type", "card"),
       ("card[number]", b.payment_method.card_number),
       ("card[exp_month]", b.payment_method.expiry_month),
       ("card[exp_year]", b.payment_method.expiry_year),
       ("card[cvc]", b.payment_method.cvc),
       ("billing_details[name]", b.payment_method.name_on_card),
       ("billing_details[email]", b.customer_email)]

/-- The PaymentIntent amount of routes.py line 160:
`int(float(checkout_data.get('total_amount', 0)))` — integer truncation of
the request total, with no multiplication by 100. -/
def stripeIntentAmount (b : StripeRouteBody) : ℤ :=
  pyTrunc b.total_amount

/-- Form parameters of the outbound PaymentIntent-creation request
(routes.py lines 166-178). -/
def stripePaymentIntentParams (b : StripeRouteBody) (payment_method_id : String) :
    List (String × String) :=
  [("amount", toString (stripeIntentAmount b)),
   ("currency", b.currency.toLower),
   ("description", "Order " ++ b.order_id),
   ("payment_method", payment_method_id),
   ("confirm", "true"),
   ("metadata[order_id]", b.order_id),
   ("metadata[customer_email]", b.customer_email),
   ("receipt_email", b.customer_email),
   ("automatic_payment_methods[enabled]", "true"),
   ("automatic_payment_methods[allow_redirects]", "never")]

/-- Both outbound request parameter sets the route issues on the success
path, in order: PaymentMethod creation, then PaymentIntent creation. -/
def stripeOutboundParamsList (b : StripeRouteBody) (payment_method_id : String) :
    List (List (String × String)) :=
  [stripePaymentMethodParams b, stripePaymentIntentParams b payment_method_id]

/-- First action of the Stripe payment route: either an HTTP error response
or an outbound gateway call. -/
inductive StripeRouteStep where
  | httpError (status : Nat) (detail : String)
  | outboundCall (url : String) (params : List (String × String))
deriving Repr, DecidableEq

/-- Embedding of the control flow of `process_stripe_payment` up to its first
outbound gateway call (routes.py lines 59-143): after the api-key presence
check the route immediately issues the PaymentMethod-creation request; no
totals validation is performed on this path. -/
def process_stripe_payment_firstStep (b : StripeRouteBody) : StripeRouteStep :=
  if b.api_key = "" then
    .httpError 400 "Stripe API key is required in payment configuration"
  else
    .outboundCall "https://api.stripe.com/v1/payment_methods"
      (stripePaymentMethodParams b)

/-- The keys that carry raw card data in Stripe form payloads. -/
def rawCardKeys : List String :=
  ["card[number]", "card[exp_month]", "card[exp_year]", "card[cvc]"]

/-! ### Square adapter (src/app/checkout/credit_card/square/) -/

/-- Card fields of `SquarePaymentMethodSchema`. -/
structure SquarePaymentMethod where
  card_number : String
  expiry_month : Nat
  expiry_year : Nat
  cvc : String
  name_on_card : String
deriving Repr, DecidableEq

/-- Validated Square checkout request (`SquareCheckoutRequestSchema`);
customer and address subobjects are elided, no verified operation reads
them. -/
structure SquareCheckoutRequest where
  order_id : String
  items : List OrderItem
  subtotal : ℚ
  tax_amount : ℚ
  shipping_amount : ℚ
  discount_amount : ℚ
  total_amount : ℚ
  currency : String
  payment_method : SquarePaymentMethod
deriving Repr, DecidableEq

/-- Outbound payload of `self.client.payments.create` as assembled by
`SquareService.create_payment` (services.py lines 166-193). -/
structure SquarePaymentPayload where
  idempotency_key : String
  amount : ℤ
  currency : String
  source_id : String
  location_id : String
deriving Repr, DecidableEq

/-- Embedding of the payload construction of `SquareService.create_payment`:
the amount is `int(float(request.total_amount))`, the idempotency key is
derived from the order id and the timestamp, and the payment source is the
fixed sandbox nonce — the card fields of the request are never read. -/
def square_create_payment_payload (r : SquareCheckoutRequest)
    (location_id : String) (nowTs : ℤ) : SquarePaymentPayload :=
  { idempotency_key := "payment_" ++ r.order_id ++ "_" ++ toString nowTs,
    amount := pyTrunc r.total_amount,
    currency := r.currency.toUpper,
    source_id := "cnon:card-nonce-ok",
    location_id := location_id }

/-- Numeric and structural checks of `SquareCheckoutRequestSchema`
validation: item count bound, field sign bounds, and the
`validate_amounts` model validator.  The purely textual format validators
(card number digits, country code, string lengths) are elided; they are
independent of the amount fields. -/
def squareSchemaValid (r : SquareCheckoutRequest) : Bool :=
  !r.items.isEmpty &&
  decide (0 < r.subtotal) &&
  decide (0 ≤ r.tax_amount) &&
  decide (0 ≤ r.shipping_amount) &&
  decide (0 ≤ r.discount_amount) &&
  decide (0 < r.total_amount) &&
  decide (|r.subtotal + r.tax_amount + r.shipping_amount - r.discount_amount
            - r.total_amount| ≤ (1 / 100 : ℚ))

/-- The `square` object of the inbound `payment_config`; the empty string
stands for an absent or falsy field. -/
structure SquareConfigFields where
  application_id : String
  access_token : String
  location_id : String
  environment : String
deriving Repr, DecidableEq

/-- Inbound body of the Square payment route; `payment_config = none` models
a missing or empty (falsy) `payment_config` object. -/
structure SquareRouteBody where
  payment_config : Option SquareConfigFields
  request : SquareCheckoutRequest
deriving Repr, DecidableEq

/-- Outcome of the Square payment route: either an HTTP error response or
the outbound payment-creation call. -/
inductive SquareRouteStep where
  | httpError (status : Nat) (detail : String)
  | createPayment (payload : SquarePaymentPayload)
deriving Repr, DecidableEq

/-- The 400 detail sent when a Square credential field is missing
(routes.py lines 61-66). -/
def squareMissingCredsMsg : String :=
  "Missing Square credentials: application_id, access_token, and location_id are required"

/-- The 400 detail sent when `payment_config` is missing or empty
(routes.py lines 45-50). -/
def squareNoConfigMsg : String :=
  "Payment configuration is required in request body"

/-- Embedding of `process_square_payment` (routes.py lines 26-104) up to the
outbound payment-creation call: config presence check, credential presence
check, schema validation, then delegation to
`SquareService.create_payment`.  The detail text of the pydantic validation
error is elided. -/
def process_square_payment (b : SquareRouteBody) (nowTs : ℤ) : SquareRouteStep :=
  match b.payment_config with
  | none => .httpError 400 squareNoConfigMsg
  | some cfg =>
      if cfg.application_id = "" ∨ cfg.access_token = "" ∨ cfg.location_id = "" then
        .httpError 400 squareMissingCredsMsg
      else if !squareSchemaValid b.request then
        .httpError 400 "Invalid request data"
      else
        .createPayment (square_create_payment_payload b.request cfg.location_id nowTs)

/-! ### Admin configuration store (src/app/admin/services.py) -/

/-- One gateway record of the flat-file store.  `credentials` stands for all
the fields the save operation copies through untouched; the two timestamps
are the fields it manages. -/
structure GatewayRecord where
  gateway_name : String
  credentials : String
  created_at : ℤ
  updated_at : ℤ
deriving Repr, DecidableEq

/-- Embedding of `AdminService.save_payment_gateway` (services.py lines
284-319): upsert by `gateway_name` against the full record list, stamping
`updated_at` with the current time, preserving `created_at` of the first
record with the same name on update and stamping it on insert.  The
returned list is what gets written wholesale to the store file. -/
def save_payment_gateway (gateways : List GatewayRecord) (g : GatewayRecord)
    (now : ℤ) : List GatewayRecord :=
  match gateways with
  | [] => [{ g with created_at := now, updated_at := now }]
  | old :: rest =>
      if old.gateway_name = g.gateway_name then
        { g with created_at := old.created_at, updated_at := now } :: rest
      else
        old :: save_payment_gateway rest g now

/-! ### Admin Stripe connection test (src/app/admin/services.py lines 108-191) -/

/-- Python str.strip(): drop leading and trailing whitespace characters. -/
def pyStrip (s : String) : String :=
  ⟨((s.data.dropWhile Char.isWhitespace).reverse.dropWhile Char.isWhitespace).reverse⟩

/-- String prefix test over character data (Python str.startswith). -/
def strStartsWith (s p : String) : Bool :=
  p.data.isPrefixOf s.data

/-- Result of the admin Stripe connection test, together with the number of
outbound HTTP calls the operation issued. -/
structure StripeTestResult where
  success : Bool
  error : Option String
  outbound_http_calls : Nat
deriving Repr, DecidableEq

/-- Embedding of `AdminService.test_stripe_connection`: the chain of input
checks of lines 122-179, mirrored in order (including the duplicated
secret-key format check).  No branch of the source issues any HTTP request;
`stripeAvailable` models whether the stripe library import succeeded. -/
def test_stripe_connection (stripeAvailable : Bool)
    (publishable_key secret_key : String) : StripeTestResult :=
  if secret_key = "" ∨ pyStrip secret_key = "" then
    { success := false, error := some "Secret key is required", outbound_http_calls := 0 }
  else if publishable_key = "" ∨ pyStrip publishable_key = "" then
    { success := false, error := some "Publishable key is required", outbound_http_calls := 0 }
  else if !stripeAvailable then
    { success := false,
      error := some "Stripe library not installed. Please install with: pip install stripe",
      outbound_http_calls := 0 }
  else if !(strStartsWith secret_key "sk_test_" || strStartsWith secret_key "sk_live_") then
    { success := false,
      error := some "Invalid Stripe secret key format. Must start with 'sk_test_' or 'sk_live_'",
      outbound_http_calls := 0 }
  else if !(strStartsWith secret_key "sk_test_" || strStartsWith secret_key "sk_live_") then
    { success := false, error := some "Invalid Stripe secret key format",
      outbound_http_calls := 0 }
  else if !(strStartsWith publishable_key "pk_test_" || strStartsWith publishable_key "pk_live_") then
    { success := false, error := some "Invalid Stripe publishable key format",
      outbound_http_calls := 0 }
  else
    { success := true, error := none, outbound_http_calls := 0 }

/-! ### Stripe webhook verification
(src/app/checkout/credit_card/stripe/services.py lines 628-660 and
routes.py lines 292-328) -/

/-- Outcome of `stripe.Webhook.construct_event`, the external signature
check: success, or one of the exception classes the source catches. -/
inductive ConstructEventResult where
  | ok
  | valueError
  | signatureError
  | otherError
deriving Repr, DecidableEq

/-- Embedding of `StripeService.verify_webhook_signature`: with no
configured secret the check is skipped and succeeds for every payload and
signature; with a secret, the outcome of the external check decides, every
caught exception mapping to false. -/
def verify_webhook_signature (webhook_secret : Option String)
    (payload signature : String)
    (constructEvent : String → String → String → ConstructEventResult) : Bool :=
  match webhook_secret with
  | none => true
  | some secret =>
      match constructEvent payload signature secret with
      | .ok => true
      | .valueError => false
      | .signatureError => false
      | .otherError => false

/-- Embedding of the `stripe_webhook` endpoint up to its response: missing
signature header, failed verification and malformed JSON each yield an HTTP
400 with the corresponding detail; otherwise the event is accepted. -/
def stripe_webhook (signatureHeader : Option String)
    (webhook_secret : Option String) (payload : String)
    (constructEvent : String → String → String → ConstructEventResult)
    (jsonParses : Bool) : Nat × String :=
  match signatureHeader with
  | none => (400, "No signature found")
  | some sig =>
      if !verify_webhook_signature webhook_secret payload sig constructEvent then
        (400, "Invalid signature")
      else if !jsonParses then
        (400, "Invalid JSON")
      else
        (200, "Webhook received")

/-! ### PayPal token expiry computation
(src/app/checkout/services.py lines 46-68) -/

/-- A naive Python datetime value. -/
structure PyDateTime where
  year : Nat
  month : Nat
  day : Nat
  hour : Nat
  minute : Nat
  second : Nat
  microsecond : Nat
deriving Repr, DecidableEq

/-- Python `datetime.replace(minute=m)`: validates the field like the
runtime does, raising ValueError when the minute is out of range. -/
def pyReplaceMinute (t : PyDateTime) (m : Nat) : Except String PyDateTime :=
  if m ≤ 59 then .ok { t with minute := m }
  else .error "minute must be in 0..59"

/-- Embedding of the `token_expires_at` computation of
`PayPalCommerceService._get_access_token` (services.py lines 65-66): zero
the seconds and microseconds, then replace the minute field with
`minute + 55`. -/
def compute_token_expires_at (now : PyDateTime) : Except String PyDateTime :=
  let t : PyDateTime := { now with second := 0, microsecond := 0 }
  pyReplaceMinute t (t.minute + 55)

/-! ### Concrete sample inputs used by counterexamples and witnesses -/

/-- A well-formed sample order line item. -/
def sampleItem : OrderItem :=
  { product_id := "p1", name := "Widget", quantity := 1, unit_price := 50,
    currency := "USD" }

/-- A Stripe route body whose totals do not add up: the calculated total is
100 while `total_amount` is 50. -/
def c1Body : StripeRouteBody :=
  { api_key := "sk_test_abc", order_id := "ord-1", customer_email := "a@b.com",
    payment_method := { card_number := "4242424242424242", expiry_month := "12",
                        expiry_year := "2030", cvc := "123", name_on_card := "A B" },
    subtotal := 100, tax_amount := 0, shipping_amount := 0, discount_amount := 0,
    total_amount := 50, currency := "USD" }

/-- An orchestrator checkout request with one item and mismatched totals. -/
def c1CheckoutReq : CheckoutRequest :=
  { order_id := "ord-2", items := [sampleItem], subtotal := 100, tax_amount := 0,
    shipping_amount := 0, discount_amount := 0, total_amount := 50,
    currency := "USD" }

/-- A Square payment method value used by sample requests. -/
def sampleSquarePM : SquarePaymentMethod :=
  { card_number := "4111111111111111", expiry_month := 12, expiry_year := 2030,
    cvc := "123", name_on_card := "A B" }

/-- A Square checkout request with mismatched totals. -/
def c1SquareReq : SquareCheckoutRequest :=
  { order_id := "ord-3", items := [sampleItem], subtotal := 100, tax_amount := 0,
    shipping_amount := 0, discount_amount := 0, total_amount := 50,
    currency := "USD", payment_method := sampleSquarePM }

/-- A Square route body with full credentials and mismatched totals. -/
def c1SquareBody : SquareRouteBody :=
  { payment_config := some { application_id := "sq-app", access_token := "sq-tok",
                             location_id := "LOC1", environment := "sandbox" },
    request := c1SquareReq }

/-- A Stripe route body with a consistent request total of 10.50 USD. -/
def c2StripeBody : StripeRouteBody :=
  { api_key := "sk_test_abc", order_id := "ord-4", customer_email := "a@b.com",
    payment_method := { card_number := "4242424242424242", expiry_month := "12",
                        expiry_year := "2030", cvc := "123", name_on_card := "A B" },
    subtotal := 21 / 2, tax_amount := 0, shipping_amount := 0, discount_amount := 0,
    total_amount := 21 / 2, currency := "USD" }

/-- A Square checkout request with a consistent request total of 10.50 USD. -/
def c2SquareReq : SquareCheckoutRequest :=
  { order_id := "ord-5", items := [sampleItem], subtotal := 21 / 2, tax_amount := 0,
    shipping_amount := 0, discount_amount := 0, total_amount := 21 / 2,
    currency := "USD", payment_method := sampleSquarePM }

/-- A Stripe route body carrying the Stripe test PAN 4242 4242 4242 4242. -/
def c3Body : StripeRouteBody :=
  { api_key := "sk_test_abc", order_id := "ord-6", customer_email := "a@b.com",
    payment_method := { card_number := "4242424242424242", expiry_month := "11",
                        expiry_year := "2031", cvc := "456", name_on_card := "C D" },
    subtotal := 10, tax_amount := 0, shipping_amount := 0, discount_amount := 0,
    total_amount := 10, currency := "USD" }

/-- A parsed PayPal gateway error body: the raw text is longer and carries
more fields than the `message` field the mapping extracts. -/
def c5Body : PayPalErrorBody :=
  { rawText := "name:INVALID_REQUEST,message:boom,debug_id:123",
    message := some "boom", error := some "INVALID_REQUEST" }

/-- An existing stored gateway record named paypal. -/
def gwOld : GatewayRecord :=
  { gateway_name := "paypal", credentials := "old-creds", created_at := 5,
    updated_at := 6 }

/-- An inbound save payload for the paypal gateway carrying stale timestamp
fields, which the save operation overwrites. -/
def gwNew : GatewayRecord :=
  { gateway_name := "paypal", credentials := "new-creds", created_at := 99,
    updated_at := 98 }

/-- A stored gateway record with a different name. -/
def gwOther : GatewayRecord :=
  { gateway_name := "stripe", credentials := "s-creds", created_at := 1,
    updated_at := 2 }

/-- An external signature-check outcome that always reports a signature
verification failure. -/
def constSigError : String → String → String → ConstructEventResult :=
  fun _ _ _ => .signatureError

/-- A Square route body whose `payment_config` is missing or empty. -/
def c9BodyNoConfig : SquareRouteBody :=
  { payment_config := none, request := c2SquareReq }

/-- A Square config object whose `location_id` is absent. -/
def c9Cfg : SquareConfigFields :=
  { application_id := "sq-app", access_token := "sq-tok", location_id := "",
    environment := "sandbox" }

/-- A Square route body whose config omits `location_id` only. -/
def c9BodyNoLocation : SquareRouteBody :=
  { payment_config := some c9Cfg, request := c2SquareReq }

/-! ### Helper lemmas -/

theorem strData_append (a b : String) : (a ++ b).data = a.data ++ b.data := by
  cases a; cases b; rfl

theorem pyTrunc_eq_floor {x : ℚ} (h : 0 ≤ x) : pyTrunc x = ⌊x⌋ := by
  simp [pyTrunc, h]

theorem isPrefixOf_exists_append {l₁ l₂ : List Char}
    (h : l₁.isPrefixOf l₂ = true) : ∃ t, l₂ = l₁ ++ t := by
  have h2 : l₁ <+: l₂ := by simp at h; exact h
  obtain ⟨t, ht⟩ := h2
  exact ⟨t, ht.symm⟩

theorem exists_not_of_dropWhile {p : Char → Bool} {l : List Char}
    (h : ∃ c ∈ l, p c = false) : ∃ c ∈ l.dropWhile p, p c = false := by
  induction l with
  | nil => simp at h
  | cons a as ih =>
      by_cases ha : p a
      · rw [List.dropWhile_cons_of_pos ha]
        apply ih
        obtain ⟨c, hc, hcp⟩ := h
        rcases List.mem_cons.mp hc with rfl | hc
        · exact absurd ha (by simp [hcp])
        · exact ⟨c, hc, hcp⟩
      · rw [List.dropWhile_cons_of_neg ha]
        exact ⟨a, List.mem_cons_self a as, by simpa using ha⟩

theorem pyStrip_ne_empty {s : String}
    (h : ∃ c ∈ s.data, c.isWhitespace = false) : pyStrip s ≠ "" := by
  obtain ⟨c, hc, hcp⟩ := exists_not_of_dropWhile h
  have h2 : ∃ d ∈ (s.data.dropWhile Char.isWhitespace).reverse,
      d.isWhitespace = false := ⟨c, List.mem_reverse.mpr hc, hcp⟩
  obtain ⟨d, hd, _⟩ := exists_not_of_dropWhile h2
  have hne := List.ne_nil_of_mem hd
  intro hcontra
  have : (((s.data.dropWhile Char.isWhitespace).reverse.dropWhile
      Char.isWhitespace).reverse : List Char) = [] := congrArg String.data hcontra
  exact hne (by simpa using this)

theorem startsWith_strip_ne_empty {s p : String} {c : Char}
    (hm : c ∈ p.data) (hw : c.isWhitespace = false)
    (h : strStartsWith s p = true) : pyStrip s ≠ "" := by
  obtain ⟨t, ht⟩ := isPrefixOf_exists_append h
  exact pyStrip_ne_empty ⟨c, by rw [ht]; exact List.mem_append_left t hm, hw⟩

theorem startsWith_ne_empty {s p : String} (hp : p.data ≠ [])
    (h : strStartsWith s p = true) : s ≠ "" := by
  obtain ⟨t, ht⟩ := isPrefixOf_exists_append h
  intro hcontra
  have : s.data = [] := congrArg String.data hcontra
  rw [ht] at this
  exact hp (List.append_eq_nil.mp this).1

/-! ### C1: totals-mismatch validation -/

/-- C1 counterexample: a Stripe process-payment request whose totals mismatch
by far more than 0.01 is not rejected; the route proceeds straight to an
outbound PaymentMethod-creation gateway call, refuting the claim that every
payment-processing endpoint rejects such a request before any external
call. -/
theorem stripe_route_skips_total_validation :
    |c1Body.subtotal + c1Body.tax_amount + c1Body.shipping_amount
      - c1Body.discount_amount - c1Body.total_amount| > (1 / 100 : ℚ) ∧
    process_stripe_payment_firstStep c1Body =
      .outboundCall "https://api.stripe.com/v1/payment_methods"
        (stripePaymentMethodParams c1Body) := by
  exact ⟨by norm_num [c1Body], rfl⟩

/-- C1 amended: the totals invariant is enforced by the checkout
orchestrator, which rejects a mismatch beyond 0.01 with a VALIDATION_ERROR
response before calling the PayPal adapter, and by the Square payment
endpoint, whose schema validation turns the mismatch into an HTTP 400 before
any outbound Square call. -/
theorem total_mismatch_rejected_by_orchestrator_and_square :
    (∀ r : CheckoutRequest, r.items ≠ [] →
      |r.subtotal + r.tax_amount + r.shipping_amount - r.discount_amount
        - r.total_amount| > (1 / 100 : ℚ) →
      process_checkout r = .reject
        { success := false, order_id := r.order_id, paypal_order_id := none,
          status := "failed", message := "Total amount calculation mismatch",
          error_code := some "VALIDATION_ERROR" }) ∧
    (∀ (b : SquareRouteBody) (cfg : SquareConfigFields) (nowTs : ℤ),
      b.payment_config = some cfg →
      cfg.application_id ≠ "" → cfg.access_token ≠ "" → cfg.location_id ≠ "" →
      |b.request.subtotal + b.request.tax_amount + b.request.shipping_amount
        - b.request.discount_amount - b.request.total_amount| > (1 / 100 : ℚ) →
      process_square_payment b nowTs = .httpError 400 "Invalid request data") := by
  constructor
  · intro r hitems hmis
    have hne : r.items.isEmpty = false := by
      cases h : r.items with
      | nil => exact absurd h hitems
      | cons a l => simp
    unfold process_checkout
    rw [if_neg (by simp [hne]), if_pos hmis]
  · intro b cfg nowTs hcfg ha ht hl hmis
    have hdec : decide (|b.request.subtotal + b.request.tax_amount
        + b.request.shipping_amount - b.request.discount_amount
        - b.request.total_amount| ≤ (1 / 100 : ℚ)) = false :=
      decide_eq_false (not_le.mpr hmis)
    have hvalid : squareSchemaValid b.request = false := by
      unfold squareSchemaValid
      rw [hdec]
      simp
    simp [process_square_payment, hcfg, ha, ht, hl, hvalid]

/-- C1 amended witness at concrete mismatched requests. -/
theorem total_mismatch_rejected_witness :
    process_checkout c1CheckoutReq = .reject
      { success := false, order_id := c1CheckoutReq.order_id,
        paypal_order_id := none, status := "failed",
        message := "Total amount calculation mismatch",
        error_code := some "VALIDATION_ERROR" } ∧
    process_square_payment c1SquareBody 7 = .httpError 400 "Invalid request data" := by
  constructor
  · exact total_mismatch_rejected_by_orchestrator_and_square.1 c1CheckoutReq
      (by decide) (by norm_num [c1CheckoutReq])
  · exact total_mismatch_rejected_by_orchestrator_and_square.2 c1SquareBody
      { application_id := "sq-app", access_token := "sq-tok",
        location_id := "LOC1", environment := "sandbox" } 7 rfl
      (by decide) (by decide) (by decide) (by norm_num [c1SquareBody, c1SquareReq])

/-! ### C2: outbound amount versus minor-unit conversion -/

/-- C2 counterexample: for a request total of 10.50 USD the claim demands an
outbound amount of 1050 minor units, but both the Stripe route and the
Square service send the truncated total, 10. -/
theorem outbound_amount_not_times_100 :
    c2StripeBody.total_amount * 100 = 1050 ∧
    stripeIntentAmount c2StripeBody = 10 ∧
    stripeIntentAmount c2StripeBody ≠ 1050 ∧
    (square_create_payment_payload c2SquareReq "LOC1" 0).amount = 10 ∧
    (square_create_payment_payload c2SquareReq "LOC1" 0).amount ≠ 1050 := by
  have hs : stripeIntentAmount c2StripeBody = 10 := by
    have h0 : (0 : ℚ) ≤ (21 / 2 : ℚ) := by norm_num
    show pyTrunc (21 / 2 : ℚ) = 10
    rw [pyTrunc_eq_floor h0]
    norm_num
  have hq : (square_create_payment_payload c2SquareReq "LOC1" 0).amount = 10 := by
    have h0 : (0 : ℚ) ≤ (21 / 2 : ℚ) := by norm_num
    show pyTrunc (21 / 2 : ℚ) = 10
    rw [pyTrunc_eq_floor h0]
    norm_num
  refine ⟨by norm_num [c2StripeBody], hs, by rw [hs]; decide, hq, by rw [hq]; decide⟩

/-- C2 amended: the outbound amount of both the Stripe PaymentIntent payload
and the Square payment payload is the request total truncated to an integer
— the code treats `total_amount` as already denominated in the provider
minor unit and never multiplies by 100. -/
theorem outbound_amount_is_truncated_total (b : StripeRouteBody)
    (r : SquareCheckoutRequest) (loc : String) (ts : ℤ)
    (hb : 0 ≤ b.total_amount) (hr : 0 ≤ r.total_amount) :
    ((stripeIntentAmount b : ℚ) ≤ b.total_amount ∧
      b.total_amount < stripeIntentAmount b + 1) ∧
    (((square_create_payment_payload r loc ts).amount : ℚ) ≤ r.total_amount ∧
      r.total_amount < (square_create_payment_payload r loc ts).amount + 1) := by
  have h1 : stripeIntentAmount b = ⌊b.total_amount⌋ := pyTrunc_eq_floor hb
  have h2 : (square_create_payment_payload r loc ts).amount = ⌊r.total_amount⌋ :=
    pyTrunc_eq_floor hr
  refine ⟨⟨?_, ?_⟩, ⟨?_, ?_⟩⟩
  · rw [h1]; exact Int.floor_le _
  · rw [h1]; exact Int.lt_floor_add_one _
  · rw [h2]; exact Int.floor_le _
  · rw [h2]; exact Int.lt_floor_add_one _

/-- C2 amended witness at the concrete 10.50 USD inputs. -/
theorem outbound_amount_is_truncated_total_witness :
    ((stripeIntentAmount c2StripeBody : ℚ) ≤ c2StripeBody.total_amount ∧
      c2StripeBody.total_amount < stripeIntentAmount c2StripeBody + 1) ∧
    (((square_create_payment_payload c2SquareReq "LOC1" 0).amount : ℚ)
        ≤ c2SquareReq.total_amount ∧
      c2SquareReq.total_amount
        < (square_create_payment_payload c2SquareReq "LOC1" 0).amount + 1) :=
  outbound_amount_is_truncated_total c2StripeBody c2SquareReq "LOC1" 0
    (by norm_num [c2StripeBody]) (by norm_num [c2SquareReq])

/-! ### C4: Square payload independent of card data -/

/-- C4: the Square payment-creation payload is identical for any two
requests differing only in the payment-method card fields, and its payment
source is always the fixed nonce, so customer card data is never sent to
Square. -/
theorem square_payload_independent_of_card_fields (r : SquareCheckoutRequest)
    (pm : SquarePaymentMethod) (loc : String) (ts : ℤ) :
    square_create_payment_payload { r with payment_method := pm } loc ts =
      square_create_payment_payload r loc ts ∧
    (square_create_payment_payload r loc ts).source_id = "cnon:card-nonce-ok" :=
  ⟨rfl, rfl⟩

/-! ### C10: PayPal token expiry computation -/

/-- C10: at any wall-clock time whose minute field is at least 5, the
`token_expires_at` computation raises ValueError instead of producing an
expiry time, because it writes `minute + 55` back into the minute field. -/
theorem token_expiry_raises_for_minute_ge_5 (now : PyDateTime)
    (h : 5 ≤ now.minute) :
    compute_token_expires_at now = .error "minute must be in 0..59" := by
  show pyReplaceMinute { now with second := 0, microsecond := 0 }
      (now.minute + 55) = .error "minute must be in 0..59"
  unfold pyReplaceMinute
  rw [if_neg (by omega)]

/-- C10 witness: a token fetch at 2026-10-12 10:05:00 UTC raises. -/
theorem token_expiry_raises_witness :
    compute_token_expires_at
      { year := 2026, month := 10, day := 12, hour := 10, minute := 5,
        second := 0, microsecond := 0 } = .error "minute must be in 0..59" :=
  token_expiry_raises_for_minute_ge_5 _ (by decide)

/-! ### C3: Stripe test PAN tokenization -/

/-- C3: the test PAN 4242 4242 4242 4242 maps to `tok_visa`; for any request
carrying a mapped PAN neither outbound Stripe request of the payment route
contains a raw card field, and an unmapped PAN is sent as raw card
fields. -/
theorem stripe_test_pan_uses_tok_visa :
    lookupTestToken "4242424242424242" = some "tok_visa" ∧
    (∀ (b : StripeRouteBody) (pmId : String),
       b.payment_method.card_number = "4242424242424242" →
       (("card[token]", "tok_visa") ∈ stripePaymentMethodParams b ∧
        ∀ ps ∈ stripeOutboundParamsList b pmId, ∀ kv ∈ ps, kv.1 ∉ rawCardKeys)) ∧
    (∀ b : StripeRouteBody, lookupTestToken b.payment_method.card_number = none →
       stripePaymentMethodParams b =
         [("type", "card"),
          ("card[number]", b.payment_method.card_number),
          ("card[exp_month]", b.payment_method.expiry_month),
          ("card[exp_year]", b.payment_method.expiry_year),
          ("card[cvc]", b.payment_method.cvc),
          ("billing_details[name]", b.payment_method.name_on_card),
          ("billing_details[email]", b.customer_email)]) := by
  refine ⟨by decide, ?_, ?_⟩
  · intro b pmId h
    have e : lookupTestToken b.payment_method.card_number = some "tok_visa" := by
      rw [h]; decide
    constructor
    · simp [stripePaymentMethodParams, e]
    · intro ps hps kv hkv
      simp only [stripeOutboundParamsList, List.mem_cons,
        List.not_mem_nil, or_false] at hps
      rcases hps with rfl | rfl
      · simp [stripePaymentMethodParams, e] at hkv
        rcases hkv with rfl | rfl | rfl | rfl <;> simp [rawCardKeys]
      · simp [stripePaymentIntentParams] at hkv
        rcases hkv with rfl | rfl | rfl | rfl | rfl | rfl | rfl | rfl | rfl | rfl <;>
          simp [rawCardKeys]
  · intro b h
    simp [stripePaymentMethodParams, h]

/-- C3 witness: a concrete request with the test PAN yields the token
parameter. -/
theorem stripe_test_pan_uses_tok_visa_witness :
    ("card[token]", "tok_visa") ∈ stripePaymentMethodParams c3Body :=
  (stripe_test_pan_uses_tok_visa.2.1 c3Body "pm_1" rfl).1

/-! ### C5: gateway error propagation -/

/-- C5 counterexample: a PayPal order-creation response with status 400
maps to a failure, but the result message carries only the parsed message
field, not the raw error body. -/
theorem paypal_error_body_not_propagated :
    (create_paypal_order_result "ord-5" 400 c5Body "pp-1").success = false ∧
    ¬ strContainsSub (create_paypal_order_result "ord-5" 400 c5Body "pp-1").message
        c5Body.rawText := by
  exact ⟨by decide, by decide⟩

/-- C5 amended: a gateway status of at least 300 always maps to a failure
result in both adapters; the Stripe result message embeds the raw response
text, while the PayPal result message embeds only the parsed message field
of the body (or Unknown error). -/
theorem gateway_error_status_maps_to_failure (status : Nat) (h : 300 ≤ status)
    (bodyText : String) (pb : PayPalErrorBody) (oid poid : String) :
    (create_payment_intent_result status bodyText).success = false ∧
    strContainsSub (create_payment_intent_result status bodyText).message bodyText ∧
    (create_paypal_order_result oid status pb poid).success = false ∧
    (create_paypal_order_result oid status pb poid).message =
      "PayPal order creation failed: " ++ pb.message.getD "Unknown error" := by
  have h200 : status ≠ 200 := by omega
  have h201 : status ≠ 201 := by omega
  refine ⟨?_, ?_, ?_, ?_⟩
  · simp [create_payment_intent_result, h200]
  · have hm : (create_payment_intent_result status bodyText).message =
        "Failed to create payment intent: " ++ bodyText := by
      simp [create_payment_intent_result, h200]
    rw [hm]
    unfold strContainsSub
    exact ⟨"Failed to create payment intent: ".data, [],
      by rw [List.append_nil, ← strData_append]⟩
  · simp [create_paypal_order_result, h201]
  · simp [create_paypal_order_result, h201]

/-- C5 amended witness at a concrete 400 response. -/
theorem gateway_error_status_maps_to_failure_witness :
    (create_payment_intent_result 400 "bad-body").success = false ∧
    strContainsSub (create_payment_intent_result 400 "bad-body").message "bad-body" ∧
    (create_paypal_order_result "o" 400 c5Body "p").success = false ∧
    (create_paypal_order_result "o" 400 c5Body "p").message =
      "PayPal order creation failed: " ++ c5Body.message.getD "Unknown error" :=
  gateway_error_status_maps_to_failure 400 (by decide) "bad-body" c5Body "o" "p"

/-! ### C6: admin gateway store upsert -/

/-- C6: saving with an already-present gateway name preserves the stored
created_at, stamps updated_at with the current time and replaces the record
in place; saving with a new name stamps both timestamps and appends the
record; the returned list is the complete new file content. -/
theorem save_payment_gateway_upsert (g : GatewayRecord) (now : ℤ) :
    (∀ (pre rest : List GatewayRecord) (old : GatewayRecord),
       (∀ x ∈ pre, x.gateway_name ≠ g.gateway_name) →
       old.gateway_name = g.gateway_name →
       save_payment_gateway (pre ++ old :: rest) g now =
         pre ++ { g with created_at := old.created_at, updated_at := now } :: rest) ∧
    (∀ gateways : List GatewayRecord,
       (∀ x ∈ gateways, x.gateway_name ≠ g.gateway_name) →
       save_payment_gateway gateways g now =
         gateways ++ [{ g with created_at := now, updated_at := now }]) := by
  constructor
  · intro pre
    induction pre with
    | nil =>
        intro rest old hpre hold
        simp [save_payment_gateway, hold]
    | cons p ps ih =>
        intro rest old hpre hold
        have hp : p.gateway_name ≠ g.gateway_name := hpre p (List.mem_cons_self p ps)
        simp only [List.cons_append, save_payment_gateway, if_neg hp, List.append_eq]
        rw [ih rest old (fun x hx => hpre x (List.mem_cons_of_mem p hx)) hold]
  · intro gws hall
    induction gws with
    | nil => simp [save_payment_gateway]
    | cons p ps ih =>
        have hp : p.gateway_name ≠ g.gateway_name := hall p (List.mem_cons_self p ps)
        simp only [save_payment_gateway, if_neg hp, List.cons_append, List.append_eq]
        rw [ih (fun x hx => hall x (List.mem_cons_of_mem p hx))]

/-- C6 witness: updating the stored paypal record keeps created_at 5 and
stamps updated_at 10; inserting it into a store without it stamps both. -/
theorem save_payment_gateway_upsert_witness :
    save_payment_gateway ([gwOther] ++ gwOld :: []) gwNew 10 =
      [gwOther] ++ { gwNew with created_at := gwOld.created_at, updated_at := 10 } :: [] ∧
    save_payment_gateway [gwOther] gwNew 10 =
      [gwOther] ++ [{ gwNew with created_at := 10, updated_at := 10 }] := by
  constructor
  · exact (save_payment_gateway_upsert gwNew 10).1 [gwOther] [] gwOld
      (by decide) (by decide)
  · exact (save_payment_gateway_upsert gwNew 10).2 [gwOther] (by decide)

/-! ### C7: admin Stripe connection test reports success on key format -/

/-- C7: with the stripe library importable, non-empty keys and well-formed
key prefixes, the connection test reports success and issues zero outbound
HTTP calls — reachability of the Stripe API is never exercised. -/
theorem test_stripe_connection_format_only (pub sec : String)
    (hs : strStartsWith sec "sk_test_" = true ∨ strStartsWith sec "sk_live_" = true)
    (hp : strStartsWith pub "pk_test_" = true ∨ strStartsWith pub "pk_live_" = true)
    (hsne : sec ≠ "") (hpne : pub ≠ "") :
    (test_stripe_connection true pub sec).success = true ∧
    (test_stripe_connection true pub sec).outbound_http_calls = 0 := by
  have hsstrip : pyStrip sec ≠ "" := by
    rcases hs with h | h
    · exact startsWith_strip_ne_empty (c := 's') (by decide) (by decide) h
    · exact startsWith_strip_ne_empty (c := 's') (by decide) (by decide) h
  have hpstrip : pyStrip pub ≠ "" := by
    rcases hp with h | h
    · exact startsWith_strip_ne_empty (c := 'p') (by decide) (by decide) h
    · exact startsWith_strip_ne_empty (c := 'p') (by decide) (by decide) h
  have hsb : (strStartsWith sec "sk_test_" || strStartsWith sec "sk_live_") = true := by
    rcases hs with h | h <;> simp [h]
  have hpb : (strStartsWith pub "pk_test_" || strStartsWith pub "pk_live_") = true := by
    rcases hp with h | h <;> simp [h]
  constructor <;>
    simp [test_stripe_connection, hsne, hpne, hsstrip, hpstrip, hsb, hpb]

/-- C7 witness at concrete well-formed sandbox keys. -/
theorem test_stripe_connection_format_only_witness :
    (test_stripe_connection true "pk_test_abc" "sk_test_xyz").success = true ∧
    (test_stripe_connection true "pk_test_abc" "sk_test_xyz").outbound_http_calls = 0 :=
  test_stripe_connection_format_only "pk_test_abc" "sk_test_xyz"
    (Or.inl (by decide)) (Or.inl (by decide)) (by decide) (by decide)

/-! ### C8: Stripe webhook signature verification -/

/-- C8: with no configured secret, verification succeeds for every payload
and signature; with a secret whose external check does not succeed,
verification returns false and the webhook endpoint answers HTTP 400 with
detail Invalid signature. -/
theorem webhook_no_secret_skips_and_bad_signature_400 :
    (∀ (payload signature : String)
       (ce : String → String → String → ConstructEventResult),
       verify_webhook_signature none payload signature ce = true) ∧
    (∀ (secret payload signature : String)
       (ce : String → String → String → ConstructEventResult) (jsonParses : Bool),
       ce payload signature secret ≠ .ok →
       verify_webhook_signature (some secret) payload signature ce = false ∧
       stripe_webhook (some signature) (some secret) payload ce jsonParses =
         (400, "Invalid signature")) := by
  constructor
  · intro payload signature ce; rfl
  · intro secret payload signature ce jsonParses hne
    have hv : verify_webhook_signature (some secret) payload signature ce = false := by
      cases hce : ce payload signature secret with
      | ok => exact absurd hce hne
      | valueError => simp [verify_webhook_signature, hce]
      | signatureError => simp [verify_webhook_signature, hce]
      | otherError => simp [verify_webhook_signature, hce]
    exact ⟨hv, by simp [stripe_webhook, hv]⟩

/-- C8 witness: a concrete failing external signature check yields false and
a 400 response. -/
theorem webhook_bad_signature_witness :
    verify_webhook_signature (some "whsec_1") "payload" "sig" constSigError = false ∧
    stripe_webhook (some "sig") (some "whsec_1") "payload" constSigError true =
      (400, "Invalid signature") :=
  webhook_no_secret_skips_and_bad_signature_400.2 "whsec_1" "payload" "sig"
    constSigError true (by decide)

/-! ### C9: Square missing-credential rejection -/

/-- C9 counterexample: a request whose payment_config is missing or empty —
and hence omits location_id — is answered 400 with the generic config
message, which does not name location_id. -/
theorem square_empty_config_generic_message :
    process_square_payment c9BodyNoConfig 0 = .httpError 400 squareNoConfigMsg ∧
    ¬ strContainsSub squareNoConfigMsg "location_id" := by
  exact ⟨rfl, by decide⟩

/-- C9 amended: a missing or empty payment_config is rejected 400 with a
generic message; a present config with any of the three credential fields
missing is rejected 400 with a detail naming application_id, access_token
and location_id; in both cases no outbound Square call is made. -/
theorem square_missing_credentials_rejected (b : SquareRouteBody) (nowTs : ℤ) :
    (b.payment_config = none →
       process_square_payment b nowTs = .httpError 400 squareNoConfigMsg) ∧
    (∀ cfg, b.payment_config = some cfg →
       (cfg.application_id = "" ∨ cfg.access_token = "" ∨ cfg.location_id = "") →
       process_square_payment b nowTs = .httpError 400 squareMissingCredsMsg) ∧
    strContainsSub squareMissingCredsMsg "application_id" ∧
    strContainsSub squareMissingCredsMsg "access_token" ∧
    strContainsSub squareMissingCredsMsg "location_id" := by
  refine ⟨?_, ?_, by decide, by decide, by decide⟩
  · intro h
    simp [process_square_payment, h]
  · intro cfg hcfg hmiss
    rcases hmiss with h | h | h <;> simp [process_square_payment, hcfg, h]

/-- C9 amended witness: a config that omits only location_id is rejected
with the credential-naming message. -/
theorem square_missing_credentials_rejected_witness :
    process_square_payment c9BodyNoLocation 3 = .httpError 400 squareMissingCredsMsg :=
  (square_missing_credentials_rejected c9BodyNoLocation 3).2.1 c9Cfg rfl
    (Or.inr (Or.inr rfl))

end Server
